import Mathlib

/-!
Shallow embedding of red-mail's `EmailSender` (src/redmail/email/sender.py)
and of the table group-span helper and body-assembly collaborators that the
repository references but whose files are not part of the source tree
(those are modelled from the specification and marked as such).

Conventions of the embedding:
* Python optional strings become `Option String`; `None` is `none`.
* Python truthiness (`x or y`) is modelled by `truthyStr` / `truthyList`
  and `pyOr` / `pyOrL`: `None` and the empty string / empty list are falsy.
* Exceptions become `Except EmailError`.
* The object state is threaded explicitly through `get_message_m` so that
  frame (non-mutation) properties are expressible.
* SMTP side effects become an explicit trace of `TransportEvent`s.
-/

set_option autoImplicit false

namespace RedMail

/-- Python truthiness of an optional string: `None` and `""` are falsy. -/
def truthyStr : Option String → Bool
  | none => false
  | some s => !(s == "")

/-- Python truthiness of an optional list: `None` and `[]` are falsy. -/
def truthyList : Option (List String) → Bool
  | none => false
  | some l => !l.isEmpty

/-- Python `a or b` on optional strings: `b` when `a` is falsy, else `a`. -/
def pyOr (a b : Option String) : Option String :=
  if truthyStr a then a else b

/-- Python `a or b` on optional address lists. -/
def pyOrL (a b : Option (List String)) : Option (List String) :=
  if truthyList a then a else b

/-- Python truthiness of an optional dict (here: an association list). -/
def truthyDict {α : Type} : Option (List α) → Bool
  | none => false
  | some l => !l.isEmpty

/-! ## Jinja parameters (sender.py: get_params / get_html_params / get_text_params) -/

/-- Ambient process information read by `get_params`:
`platform.node()`, `getpass.getuser()` and `datetime.datetime.now()`. -/
structure SysEnv where
  node : String
  user : String
  now : Nat

/-- A value stored in the Jinja parameter dict.  `vAddr` embeds
`EmailAddress(sender)` and `vError` embeds `Error(content_type=...)` from
`redmail.models` (opaque wrappers around their constructor arguments). -/
inductive PValue where
  | vStr : String → PValue
  | vTime : Nat → PValue
  | vAddr : Option String → PValue
  | vError : String → PValue
  | vCustom : Nat → PValue
deriving DecidableEq

/-- A Python dict of Jinja parameters, as its lookup function. -/
abbrev Params : Type := String → Option PValue

/-- Lookup in a caller-supplied dict (association list, first match). -/
def lookupExtra (e : List (String × PValue)) (k : String) : Option PValue :=
  (e.find? (fun p => p.1 == k)).map Prod.snd

/-- `params.update(extra)`: keys of `extra` override, others are kept. -/
def updateExtra (p : Params) (e : List (String × PValue)) : Params :=
  fun k => match lookupExtra e k with
    | some v => some v
    | none => p k

/-- `params.update({key: v})` for a single key. -/
def setKey (p : Params) (k : String) (v : PValue) : Params :=
  fun k2 => if k2 == k then some v else p k2

/-! ## MIME message model -/

/-- A node of the composed body tree.  Leaf body parts record the resolved
(template name, inline source) pair that the opaque template-rendering
collaborator would receive.  `related p keys` is the `multipart/related`
wrapper holding the HTML part `p` followed by one inline image per key;
`alternative p q` is the `multipart/alternative` wrapper holding `p` as
its first child and `q` as its second. -/
inductive MimePart where
  | textPart : Option String → Option String → MimePart
  | htmlPart : Option String → Option String → MimePart
  | related : MimePart → List String → MimePart
  | alternative : MimePart → MimePart → MimePart
deriving DecidableEq

/-- The composed email message: headers set by `_create_body`, the body
tree grown by the attach steps, and the attachment file names.  A
non-empty attachment list stands for the `multipart/mixed` root whose
first child is the body (when any) followed by the attachment parts. -/
structure EmailMsg where
  fromH : Option String
  subjectH : Option String
  toH : Option (List String)
  ccH : Option (List String)
  bccH : Option (List String)
  body : Option MimePart
  attachmentsM : List String
deriving DecidableEq

/-- The single composition error raised inside `get_message`
(`ValueError("Email must have a subject")`, sender.py lines 299-300). -/
inductive EmailError where
  | emptySubject
deriving DecidableEq

/-- An SMTP interaction, for the transport trace of `send`. -/
inductive TransportEvent where
  | connected : String → Nat → TransportEvent
  | starttls : TransportEvent
  | loggedIn : Option String → Option String → TransportEvent
  | messageSent : EmailMsg → TransportEvent
  | quitted : TransportEvent
deriving DecidableEq

/-! ## The EmailSender object -/

/-- The mutable state of an `EmailSender` instance: connection settings and
the per-instance default configuration set in `__init__`.  The two theme
names are the class attributes `default_html_theme` / `default_text_theme`. -/
structure EmailSender where
  host : String
  port : Nat
  user_name : Option String
  password : Option String
  use_starttls : Bool
  sender : Option String
  receivers : Option (List String)
  cc : Option (List String)
  bcc : Option (List String)
  subject : Option String
  text : Option String
  html : Option String
  html_template : Option String
  text_template : Option String
  default_html_theme : Option String
  default_text_theme : Option String
deriving DecidableEq

/-- Arguments of `get_message` / `send`; every parameter defaults to `None`.
Images, tables and attachments are identified by their dict keys; the
params dict is an association list. -/
structure GetMessageArgs where
  subject : Option String := none
  sender : Option String := none
  receivers : Option (List String) := none
  cc : Option (List String) := none
  bcc : Option (List String) := none
  html : Option String := none
  text : Option String := none
  html_template : Option String := none
  text_template : Option String := none
  body_images : Option (List String) := none
  body_tables : Option (List String) := none
  body_params : Option (List (String × PValue)) := none
  attachments : Option (List String) := none
deriving DecidableEq

namespace EmailSender

/-- `get_receivers`: per-call receivers or the stored default (sender.py 339-341). -/
def get_receivers (self : EmailSender) (receivers : Option (List String)) :
    Option (List String) :=
  pyOrL receivers self.receivers

/-- `get_cc` (sender.py 343-345). -/
def get_cc (self : EmailSender) (cc : Option (List String)) : Option (List String) :=
  pyOrL cc self.cc

/-- `get_bcc` (sender.py 347-349). -/
def get_bcc (self : EmailSender) (bcc : Option (List String)) : Option (List String) :=
  pyOrL bcc self.bcc

/-- `get_sender`: `sender or self.sender or self.user_name` (sender.py 351-353). -/
def get_sender (self : EmailSender) (sender : Option String) : Option String :=
  pyOr sender (pyOr self.sender self.user_name)

/-- `get_params` (sender.py 390-398): the implicit Jinja variables
`node`, `user`, `now` and `sender` shared by both bodies. -/
def get_params (_self : EmailSender) (env : SysEnv) (sender : Option String) : Params :=
  fun k =>
    if k == "node" then some (.vStr env.node)
    else if k == "user" then some (.vStr env.user)
    else if k == "now" then some (.vTime env.now)
    else if k == "sender" then some (.vAddr sender)
    else none

/-- `get_html_params` (sender.py 400-408): the shared params, then the
HTML-inline error marker, then (if truthy) the caller's extra params. -/
def get_html_params (self : EmailSender) (env : SysEnv)
    (extra : Option (List (String × PValue))) (sender : Option String) : Params :=
  let params := self.get_params env sender
  let params := setKey params "error" (.vError "html-inline")
  match extra with
  | some e => if e.isEmpty then params else updateExtra params e
  | none => params

/-- `get_text_params` (sender.py 410-418): same, with the plain-text error marker. -/
def get_text_params (self : EmailSender) (env : SysEnv)
    (extra : Option (List (String × PValue))) (sender : Option String) : Params :=
  let params := self.get_params env sender
  let params := setKey params "error" (.vError "text")
  match extra with
  | some e => if e.isEmpty then params else updateExtra params e
  | none => params

/-- `_create_body` (sender.py 355-367): a fresh message with from/subject
always set and to/cc/bcc set only when truthy. -/
def _create_body (_self : EmailSender) (subject sender : Option String)
    (receivers cc bcc : Option (List String)) : EmailMsg :=
  { fromH := sender
    subjectH := subject
    toH := if truthyList receivers then receivers else none
    ccH := if truthyList cc then cc else none
    bccH := if truthyList bcc then bcc else none
    body := none
    attachmentsM := [] }

end EmailSender

/-- Modelled from the spec: `TextBody.attach` from the missing
`redmail/email/body.py`.  Per §4.6 and §3, a lone text part is the
message's direct payload; the part records the resolved template name and
inline source handed to the opaque renderer. -/
def attachText (msg : EmailMsg) (template content : Option String) : EmailMsg :=
  { msg with body := some (.textPart template content) }

/-- Modelled from the spec (§4.6): the HTML leaf of the body tree — the
bare HTML part, or, when inline images are present, the
`multipart/related` wrapper holding the HTML part and its images. -/
def htmlLeafOf (template content : Option String) (images : List String) : MimePart :=
  if images.isEmpty then .htmlPart template content
  else .related (.htmlPart template content) images

/-- Modelled from the spec: `HTMLBody.attach` from the missing
`redmail/email/body.py`.  Per §4.6: if inline images are present the HTML
part and its resources are wrapped in `multipart/related`; if a text part
is already attached, text and HTML are wrapped in `multipart/alternative`
with text first, HTML second; otherwise the HTML leaf is the payload. -/
def attachHtml (msg : EmailMsg) (template content : Option String)
    (images : List String) : EmailMsg :=
  match msg.body with
  | some (.textPart t c) =>
      { msg with body := some (.alternative (.textPart t c)
          (htmlLeafOf template content images)) }
  | _ => { msg with body := some (htmlLeafOf template content images) }

/-- Modelled from the spec: `Attachments.attach` from the missing
`redmail/email/attachment.py`.  Per §3 and §4.6, attachments turn the
message into a `multipart/mixed` root whose first child is the existing
body (when any) followed by one part per attachment; here the attachment
names are recorded on the message. -/
def attachAttachments (msg : EmailMsg) (atts : List String) : EmailMsg :=
  { msg with attachmentsM := msg.attachmentsM ++ atts }

namespace EmailSender

/-- `get_message` (sender.py 271-337) with the object state threaded
explicitly: resolve every field against the defaults, fail when the
resolved subject is `None`, then create the headers and attach the text
body, the HTML body and the attachments in that order.  The second
component is the object state after the call. -/
def get_message_m (self : EmailSender) (a : GetMessageArgs) :
    Except EmailError EmailMsg × EmailSender :=
  let subject := pyOr a.subject self.subject
  let sender := self.get_sender a.sender
  let receivers := self.get_receivers a.receivers
  let cc := self.get_cc a.cc
  let bcc := self.get_bcc a.bcc
  let html := pyOr a.html self.html
  let text := pyOr a.text self.text
  let html_template := pyOr a.html_template self.html_template
  let text_template := pyOr a.text_template self.text_template
  if subject = none then
    (.error .emptySubject, self)
  else
    let msg := self._create_body subject sender receivers cc bcc
    let msg :=
      if text.isSome || text_template.isSome then
        attachText msg text_template text
      else msg
    let msg :=
      if html.isSome || html_template.isSome then
        attachHtml msg html_template html (a.body_images.getD [])
      else msg
    let msg :=
      if truthyDict a.attachments then
        attachAttachments msg (a.attachments.getD [])
      else msg
    (.ok msg, self)

/-- `get_message`, result only. -/
def get_message (self : EmailSender) (a : GetMessageArgs) :
    Except EmailError EmailMsg :=
  (self.get_message_m a).1

/-- `connect` (sender.py 377-388) as its SMTP interaction trace. -/
def connect_events (self : EmailSender) : List TransportEvent :=
  [.connected self.host self.port]
    ++ (if self.use_starttls then [.starttls] else [])
    ++ (if self.user_name.isSome || self.password.isSome then
          [.loggedIn self.user_name self.password]
        else [])

/-- `send_message` (sender.py 369-375): connect, send, quit. -/
def send_message (self : EmailSender) (msg : EmailMsg) : List TransportEvent :=
  self.connect_events ++ [.messageSent msg, .quitted]

/-- `send` (sender.py 153-269): compose first; only on success hand the
message to the transport.  Returns the composition result and the trace of
transport interactions performed. -/
def send (self : EmailSender) (a : GetMessageArgs) :
    Except EmailError EmailMsg × List TransportEvent :=
  match self.get_message a with
  | .error e => (.error e, [])
  | .ok msg => (.ok msg, self.send_message msg)

end EmailSender

/-! ## Group spans (redmail/email/envs.py, modelled from the spec §4.1) -/

/-- A table cell value: string, number or null.  Null compares equal to
null only, which the derived equality gives. -/
inductive PyVal where
  | pstr : String → PyVal
  | pint : Int → PyVal
  | pnull : PyVal
deriving DecidableEq

/-- A table row restricted to the grouping columns, in column order. -/
abbrev Row := List PyVal

/-- Modelled from the spec: the number of leading keys of `l` equal to
`a`, i.e. how many subsequent rows remain in `a`'s group. -/
def countRun (a : Row) : List Row → Nat
  | [] => 0
  | b :: t => if b = a then countRun a t + 1 else 0

/-- Modelled from the spec: the group-span scan after the first row;
`prev` is the previous row's grouping key.  A row whose key equals `prev`
is not a group start and gets `span_length = 0`; otherwise it starts a
group spanning itself plus the following rows with the same key. -/
def spanTail (prev : Row) : List Row → List (Bool × Nat)
  | [] => []
  | b :: t =>
      (if b = prev then (false, 0) else (true, countRun b t + 1)) :: spanTail b t

/-- Modelled from the spec: `get_span` from the missing
`redmail/email/envs.py` (spec §4.1).  For the grouping column at ordinal
position `k`, a row's grouping key is the prefix of its values over
columns `0..k`.  A row starts a group iff it is the first row or its key
differs from the previous row's key — the spec's third clause (the
enclosing column `k-1` started a group at this row) is subsumed, since a
group start at `k-1` already means the row is first or some column in
`0..k-1` changed.  Returns one `(is_group_start, span_length)` pair per
row, `span_length = 0` on non-start rows. -/
def get_span (table : List Row) (k : Nat) : List (Bool × Nat) :=
  match table.map (fun r => r.take (k + 1)) with
  | [] => []
  | a :: t => (true, countRun a t + 1) :: spanTail a t

/-! ## Body-tree observers and concrete instances -/

/-- The (template, content) pair recorded by the text part of a body
tree, if any: a lone text part, or the first child of the alternative
wrapper. -/
def partTextSpec : MimePart → Option (Option String × Option String)
  | .textPart t c => some (t, c)
  | .alternative p _ => partTextSpec p
  | _ => none

/-- The (template, content) pair recorded by the HTML part of a body
tree, if any: a lone HTML part, the HTML part inside the related wrapper,
or the second child of the alternative wrapper. -/
def partHtmlSpec : MimePart → Option (Option String × Option String)
  | .htmlPart t c => some (t, c)
  | .related p _ => partHtmlSpec p
  | .alternative _ q => partHtmlSpec q
  | _ => none

/-- The text part of a composed message. -/
def EmailMsg.textSpec (m : EmailMsg) : Option (Option String × Option String) :=
  match m.body with
  | some p => partTextSpec p
  | none => none

/-- The HTML part of a composed message. -/
def EmailMsg.htmlSpec (m : EmailMsg) : Option (Option String × Option String) :=
  match m.body with
  | some p => partHtmlSpec p
  | none => none

/-- Whether a body-tree node is an HTML part, possibly wrapped with its
inline images in a `multipart/related`. -/
def isHtmlLeaf : MimePart → Bool
  | .htmlPart _ _ => true
  | .related (.htmlPart _ _) _ => true
  | _ => false

/-- A sender exactly as `__init__` leaves it: no defaults set. -/
def sender0 : EmailSender :=
  { host := "localhost", port := 0, user_name := none, password := none,
    use_starttls := true, sender := none, receivers := none, cc := none,
    bcc := none, subject := none, text := none, html := none,
    html_template := none, text_template := none,
    default_html_theme := some "modest.html",
    default_text_theme := some "pandas.txt" }

/-- A sender with a default subject stored on the object. -/
def senderDef : EmailSender := { sender0 with subject := some "Default subject" }

/-- A sender with only the authentication user name set. -/
def senderAuth : EmailSender := { sender0 with user_name := some "auth@example.com" }

/-- A call providing body text but no subject. -/
def argsTextOnly : GetMessageArgs := { text := some "Hello" }

/-- A call providing a subject, a text body and an HTML body. -/
def argsTH : GetMessageArgs :=
  { subject := some "Hi", text := some "t", html := some "<p>h</p>" }

/-- The message `sender0.get_message argsTH` composes. -/
def msgTH : EmailMsg :=
  { fromH := none, subjectH := some "Hi", toH := none, ccH := none,
    bccH := none,
    body := some (.alternative (.textPart none (some "t"))
      (.htmlPart none (some "<p>h</p>"))),
    attachmentsM := [] }

/-- A call providing a subject, text and receivers. -/
def argsC5 : GetMessageArgs :=
  { subject := some "S", text := some "T",
    receivers := some ["r@example.com"] }

/-- The message `sender0.get_message argsC5` composes. -/
def msgC5 : EmailMsg :=
  { fromH := none, subjectH := some "S", toH := some ["r@example.com"],
    ccH := none, bccH := none,
    body := some (.textPart none (some "T")), attachmentsM := [] }

/-- A call providing only a subject. -/
def argsSubj : GetMessageArgs := { subject := some "Hi" }

/-- The message `senderAuth.get_message argsSubj` composes. -/
def msgAuth : EmailMsg :=
  { fromH := some "auth@example.com", subjectH := some "Hi", toH := none,
    ccH := none, bccH := none, body := none, attachmentsM := [] }

/-- The message `senderDef.get_message { subject := some "" }` composes. -/
def msgDef : EmailMsg :=
  { fromH := none, subjectH := some "Default subject", toH := none,
    ccH := none, bccH := none, body := none, attachmentsM := [] }

/-- A concrete process environment. -/
def env0 : SysEnv := { node := "host1", user := "alice", now := 0 }

/-! ## Helper lemmas -/

theorem countRun_le_length (a : Row) (l : List Row) : countRun a l ≤ l.length := by
  induction l generalizing a with
  | nil => simp [countRun]
  | cons b t ih =>
    simp only [countRun, List.length_cons]
    split
    · exact Nat.succ_le_succ (ih a)
    · exact Nat.zero_le _

theorem spanTail_filter_sum (l : List Row) (prev : Row) :
    (((spanTail prev l).filter (fun p => p.1)).map (fun p => p.2)).sum
      = l.length - countRun prev l := by
  induction l generalizing prev with
  | nil => simp [spanTail, countRun]
  | cons b t ih =>
    by_cases h : b = prev
    · subst h
      simp [spanTail, countRun, Nat.succ_sub_succ, ih b]
    · have hle := countRun_le_length b t
      simp [spanTail, countRun, h, ih b]
      omega

theorem pyOr_none (b : Option String) : pyOr none b = b := rfl

theorem pyOr_empty (b : Option String) : pyOr (some "") b = b := by
  simp [pyOr, truthyStr]

theorem pyOr_eq_none (a b : Option String) :
    pyOr a b = none ↔ truthyStr a = false ∧ b = none := by
  rcases a with _ | s
  · simp [pyOr, truthyStr]
  · by_cases hs : s = ""
    · simp [pyOr, truthyStr, hs]
    · simp [pyOr, truthyStr, hs]

/-- `get_message` written as a single conditional, for reasoning. -/
theorem get_message_eq (s : EmailSender) (a : GetMessageArgs) :
    s.get_message a =
      (if pyOr a.subject s.subject = none then
        Except.error EmailError.emptySubject
      else
        let m0 := s._create_body (pyOr a.subject s.subject)
          (s.get_sender a.sender) (s.get_receivers a.receivers)
          (s.get_cc a.cc) (s.get_bcc a.bcc)
        let m1 :=
          if (pyOr a.text s.text).isSome
              || (pyOr a.text_template s.text_template).isSome then
            attachText m0 (pyOr a.text_template s.text_template)
              (pyOr a.text s.text)
          else m0
        let m2 :=
          if (pyOr a.html s.html).isSome
              || (pyOr a.html_template s.html_template).isSome then
            attachHtml m1 (pyOr a.html_template s.html_template)
              (pyOr a.html s.html) (a.body_images.getD [])
          else m1
        .ok (if truthyDict a.attachments then
              attachAttachments m2 (a.attachments.getD [])
            else m2)) := by
  by_cases h : pyOr a.subject s.subject = none <;>
    simp [EmailSender.get_message, EmailSender.get_message_m, h]

theorem attachText_fromH (msg : EmailMsg) (t c : Option String) :
    (attachText msg t c).fromH = msg.fromH := rfl

theorem attachText_subjectH (msg : EmailMsg) (t c : Option String) :
    (attachText msg t c).subjectH = msg.subjectH := rfl

theorem attachText_toH (msg : EmailMsg) (t c : Option String) :
    (attachText msg t c).toH = msg.toH := rfl

theorem attachText_ccH (msg : EmailMsg) (t c : Option String) :
    (attachText msg t c).ccH = msg.ccH := rfl

theorem attachText_bccH (msg : EmailMsg) (t c : Option String) :
    (attachText msg t c).bccH = msg.bccH := rfl

theorem attachText_body (msg : EmailMsg) (t c : Option String) :
    (attachText msg t c).body = some (.textPart t c) := rfl

theorem attachHtml_fromH (msg : EmailMsg) (t c : Option String) (imgs : List String) :
    (attachHtml msg t c imgs).fromH = msg.fromH := by
  unfold attachHtml; split <;> rfl

theorem attachHtml_subjectH (msg : EmailMsg) (t c : Option String) (imgs : List String) :
    (attachHtml msg t c imgs).subjectH = msg.subjectH := by
  unfold attachHtml; split <;> rfl

theorem attachHtml_toH (msg : EmailMsg) (t c : Option String) (imgs : List String) :
    (attachHtml msg t c imgs).toH = msg.toH := by
  unfold attachHtml; split <;> rfl

theorem attachHtml_ccH (msg : EmailMsg) (t c : Option String) (imgs : List String) :
    (attachHtml msg t c imgs).ccH = msg.ccH := by
  unfold attachHtml; split <;> rfl

theorem attachHtml_bccH (msg : EmailMsg) (t c : Option String) (imgs : List String) :
    (attachHtml msg t c imgs).bccH = msg.bccH := by
  unfold attachHtml; split <;> rfl

theorem attachAttachments_fromH (msg : EmailMsg) (l : List String) :
    (attachAttachments msg l).fromH = msg.fromH := rfl

theorem attachAttachments_subjectH (msg : EmailMsg) (l : List String) :
    (attachAttachments msg l).subjectH = msg.subjectH := rfl

theorem attachAttachments_toH (msg : EmailMsg) (l : List String) :
    (attachAttachments msg l).toH = msg.toH := rfl

theorem attachAttachments_ccH (msg : EmailMsg) (l : List String) :
    (attachAttachments msg l).ccH = msg.ccH := rfl

theorem attachAttachments_bccH (msg : EmailMsg) (l : List String) :
    (attachAttachments msg l).bccH = msg.bccH := rfl

theorem attachAttachments_body (msg : EmailMsg) (l : List String) :
    (attachAttachments msg l).body = msg.body := rfl

/-- The headers of any successfully composed message are the resolved
per-call/default values, recipient headers set only when truthy. -/
theorem get_message_headers (s : EmailSender) (a : GetMessageArgs)
    (m : EmailMsg) (hok : s.get_message a = .ok m) :
    m.fromH = s.get_sender a.sender
    ∧ m.subjectH = pyOr a.subject s.subject
    ∧ m.toH = (if truthyList (s.get_receivers a.receivers) then
        s.get_receivers a.receivers else none)
    ∧ m.ccH = (if truthyList (s.get_cc a.cc) then s.get_cc a.cc else none)
    ∧ m.bccH = (if truthyList (s.get_bcc a.bcc) then s.get_bcc a.bcc else none) := by
  rw [get_message_eq] at hok
  by_cases hsub : pyOr a.subject s.subject = none
  · rw [if_pos hsub] at hok
    exact absurd hok (by simp)
  · rw [if_neg hsub] at hok
    simp only [Except.ok.injEq] at hok
    subst hok
    refine ⟨?_, ?_, ?_, ?_, ?_⟩ <;>
      (split <;> split <;> split <;>
        simp [attachAttachments_fromH, attachAttachments_subjectH,
          attachAttachments_toH, attachAttachments_ccH, attachAttachments_bccH,
          attachHtml_fromH, attachHtml_subjectH, attachHtml_toH,
          attachHtml_ccH, attachHtml_bccH,
          attachText_fromH, attachText_subjectH, attachText_toH,
          attachText_ccH, attachText_bccH,
          EmailSender._create_body])

/-- The body of any successfully composed message, by cases on whether a
text and an HTML body were resolved. -/
theorem get_message_body (s : EmailSender) (a : GetMessageArgs)
    (m : EmailMsg) (hok : s.get_message a = .ok m) :
    m.body =
      (if (pyOr a.html s.html).isSome
          || (pyOr a.html_template s.html_template).isSome then
        (if (pyOr a.text s.text).isSome
            || (pyOr a.text_template s.text_template).isSome then
          some (.alternative
            (.textPart (pyOr a.text_template s.text_template)
              (pyOr a.text s.text))
            (htmlLeafOf (pyOr a.html_template s.html_template)
              (pyOr a.html s.html) (a.body_images.getD [])))
        else
          some (htmlLeafOf (pyOr a.html_template s.html_template)
            (pyOr a.html s.html) (a.body_images.getD [])))
      else
        (if (pyOr a.text s.text).isSome
            || (pyOr a.text_template s.text_template).isSome then
          some (.textPart (pyOr a.text_template s.text_template)
            (pyOr a.text s.text))
        else none)) := by
  rw [get_message_eq] at hok
  by_cases hsub : pyOr a.subject s.subject = none
  · rw [if_pos hsub] at hok
    exact absurd hok (by simp)
  · rw [if_neg hsub] at hok
    simp only [Except.ok.injEq] at hok
    subst hok
    split <;> split <;> split <;>
      simp_all [attachAttachments_body, attachHtml, attachText_body,
        EmailSender._create_body]

theorem partHtmlSpec_htmlLeafOf (t c : Option String) (imgs : List String) :
    partHtmlSpec (htmlLeafOf t c imgs) = some (t, c) := by
  unfold htmlLeafOf
  split <;> rfl

theorem partTextSpec_htmlLeafOf (t c : Option String) (imgs : List String) :
    partTextSpec (htmlLeafOf t c imgs) = none := by
  unfold htmlLeafOf
  split <;> rfl

theorem isHtmlLeaf_htmlLeafOf (t c : Option String) (imgs : List String) :
    isHtmlLeaf (htmlLeafOf t c imgs) = true := by
  unfold htmlLeafOf
  split <;> rfl

example : get_span [[PyVal.pstr "A"], [PyVal.pstr "A"], [PyVal.pstr "B"]] 0
    = [(true, 2), (false, 0), (true, 1)] := rfl

example : get_span [[PyVal.pstr "A", PyVal.pint 1], [PyVal.pstr "A", PyVal.pint 1],
    [PyVal.pstr "A", PyVal.pint 2]] 1 = [(true, 2), (false, 0), (true, 1)] := rfl

/-! ## Claims -/

/-- C1 counterexample: a call that supplies body text but no subject is
rejected by `get_message` with the empty-message error, although the
claim says composition must not raise it when some body content is
provided. -/
theorem empty_message_error_despite_content :
    sender0.get_message argsTextOnly = .error .emptySubject
    ∧ argsTextOnly.text = some "Hello" :=
  ⟨rfl, rfl⟩

/-- C1 (amended): `get_message` fails with the empty-message error exactly
when no truthy subject argument is supplied and the object's default
subject is unset — independently of any text, HTML or attachment
content. -/
theorem get_message_empty_subject_iff (s : EmailSender) (a : GetMessageArgs) :
    (s.get_message a = .error .emptySubject
      ↔ truthyStr a.subject = false ∧ s.subject = none) := by
  rw [get_message_eq, ← pyOr_eq_none]
  by_cases h : pyOr a.subject s.subject = none
  · simp [h]
  · simp [h]

/-- C2: for every table and every grouping column, the sum of
`span_length` over the rows `get_span` marks as group starts equals the
total number of rows of the table. -/
theorem get_span_group_start_sum (table : List Row) (k : Nat) :
    (((get_span table k).filter (fun p => p.1)).map (fun p => p.2)).sum
      = table.length := by
  cases table with
  | nil => rfl
  | cons r rs =>
    have h : get_span (r :: rs) k
        = (true, countRun (r.take (k + 1))
            (rs.map (fun r2 => r2.take (k + 1))) + 1)
          :: spanTail (r.take (k + 1)) (rs.map (fun r2 => r2.take (k + 1))) := rfl
    rw [h]
    have hle := countRun_le_length (r.take (k + 1))
      (rs.map (fun r2 => r2.take (k + 1)))
    have hst := spanTail_filter_sum (rs.map (fun r2 => r2.take (k + 1)))
      (r.take (k + 1))
    simp only [List.length_map] at hle hst
    simp [List.filter_cons, hst]
    omega

/-- C3: whenever both a text body and an HTML body are resolved for a
compose call, the successfully composed message's body is a
`multipart/alternative` whose first child is the text part and whose
second child is the HTML part (possibly related-wrapped with its inline
images). -/
theorem get_message_alternative_text_first (s : EmailSender)
    (a : GetMessageArgs) (m : EmailMsg)
    (htext : (pyOr a.text s.text).isSome = true
      ∨ (pyOr a.text_template s.text_template).isSome = true)
    (hhtml : (pyOr a.html s.html).isSome = true
      ∨ (pyOr a.html_template s.html_template).isSome = true)
    (hok : s.get_message a = .ok m) :
    m.body = some (.alternative
      (.textPart (pyOr a.text_template s.text_template) (pyOr a.text s.text))
      (htmlLeafOf (pyOr a.html_template s.html_template) (pyOr a.html s.html)
        (a.body_images.getD [])))
    ∧ isHtmlLeaf (htmlLeafOf (pyOr a.html_template s.html_template)
        (pyOr a.html s.html) (a.body_images.getD [])) = true := by
  have hb := get_message_body s a m hok
  have ht : ((pyOr a.text s.text).isSome
      || (pyOr a.text_template s.text_template).isSome) = true := by
    rcases htext with h | h <;> simp [h]
  have hh : ((pyOr a.html s.html).isSome
      || (pyOr a.html_template s.html_template).isSome) = true := by
    rcases hhtml with h | h <;> simp [h]
  simp [ht, hh] at hb
  exact ⟨hb, isHtmlLeaf_htmlLeafOf _ _ _⟩

/-- C3 witness: a concrete call with both bodies composes the
text-first alternative. -/
theorem get_message_alternative_text_first_witness :
    msgTH.body = some (.alternative (.textPart none (some "t"))
      (htmlLeafOf none (some "<p>h</p>") []))
    ∧ isHtmlLeaf (htmlLeafOf none (some "<p>h</p>") []) = true :=
  get_message_alternative_text_first sender0 argsTH msgTH
    (Or.inl rfl) (Or.inl rfl) rfl

/-- C4: `send` returns exactly the composition result; when composition
fails no transport interaction at all happens, and when it succeeds the
transport interactions are exactly those of `send_message` on the
composed message. -/
theorem send_no_transport_before_compose (s : EmailSender) (a : GetMessageArgs) :
    (s.send a).1 = s.get_message a
    ∧ (∀ e : EmailError, s.get_message a = .error e → (s.send a).2 = [])
    ∧ (∀ m : EmailMsg, s.get_message a = .ok m →
        (s.send a).2 = s.send_message m) := by
  refine ⟨?_, ?_, ?_⟩
  · unfold EmailSender.send
    cases h : s.get_message a <;> simp [h]
  · intro e he
    unfold EmailSender.send
    rw [he]
  · intro m hm
    unfold EmailSender.send
    rw [hm]

/-- C4 witness: a failing composition performs no transport interaction. -/
theorem send_no_transport_before_compose_witness :
    (sender0.send {}).2 = [] :=
  (send_no_transport_before_compose sender0 {}).2.1 .emptySubject rfl

/-- C5 counterexample: supplying the empty string as per-call subject does
not make the composed message use it; the object's stored default is used
instead. -/
theorem empty_string_subject_uses_default :
    senderDef.get_message { subject := some "" } = .ok msgDef
    ∧ ¬ msgDef.subjectH = some "" := by
  exact ⟨rfl, by decide⟩

/-- C5 (amended): every successfully composed message carries, for each
default-configurable field, the per-call value when it is truthy and the
object's stored default otherwise (`sender` falling back further to
`user_name`; recipient headers omitted when the resolved list is not
truthy). -/
theorem get_message_field_resolution (s : EmailSender) (a : GetMessageArgs)
    (m : EmailMsg) (hok : s.get_message a = .ok m) :
    m.subjectH = pyOr a.subject s.subject
    ∧ m.fromH = pyOr a.sender (pyOr s.sender s.user_name)
    ∧ m.toH = (if truthyList (pyOrL a.receivers s.receivers) then
        pyOrL a.receivers s.receivers else none)
    ∧ m.ccH = (if truthyList (pyOrL a.cc s.cc) then pyOrL a.cc s.cc else none)
    ∧ m.bccH = (if truthyList (pyOrL a.bcc s.bcc) then
        pyOrL a.bcc s.bcc else none)
    ∧ m.textSpec = (if (pyOr a.text s.text).isSome
          || (pyOr a.text_template s.text_template).isSome then
        some (pyOr a.text_template s.text_template, pyOr a.text s.text)
      else none)
    ∧ m.htmlSpec = (if (pyOr a.html s.html).isSome
          || (pyOr a.html_template s.html_template).isSome then
        some (pyOr a.html_template s.html_template, pyOr a.html s.html)
      else none) := by
  obtain ⟨h1, h2, h3, h4, h5⟩ := get_message_headers s a m hok
  have hb := get_message_body s a m hok
  refine ⟨h2, h1, h3, h4, h5, ?_, ?_⟩
  · split at hb <;> split at hb <;>
      simp_all [EmailMsg.textSpec, partTextSpec, partTextSpec_htmlLeafOf]
  · split at hb <;> split at hb <;>
      simp_all [EmailMsg.htmlSpec, partHtmlSpec, partHtmlSpec_htmlLeafOf]

/-- C5 witness: the resolution at a concrete call with a supplied subject,
text and receivers against an object with no defaults. -/
theorem get_message_field_resolution_witness :
    msgC5.subjectH = pyOr argsC5.subject sender0.subject
    ∧ msgC5.fromH = pyOr argsC5.sender (pyOr sender0.sender sender0.user_name)
    ∧ msgC5.toH = (if truthyList (pyOrL argsC5.receivers sender0.receivers) then
        pyOrL argsC5.receivers sender0.receivers else none)
    ∧ msgC5.ccH = (if truthyList (pyOrL argsC5.cc sender0.cc) then
        pyOrL argsC5.cc sender0.cc else none)
    ∧ msgC5.bccH = (if truthyList (pyOrL argsC5.bcc sender0.bcc) then
        pyOrL argsC5.bcc sender0.bcc else none)
    ∧ msgC5.textSpec = (if (pyOr argsC5.text sender0.text).isSome
          || (pyOr argsC5.text_template sender0.text_template).isSome then
        some (pyOr argsC5.text_template sender0.text_template,
          pyOr argsC5.text sender0.text)
      else none)
    ∧ msgC5.htmlSpec = (if (pyOr argsC5.html sender0.html).isSome
          || (pyOr argsC5.html_template sender0.html_template).isSome then
        some (pyOr argsC5.html_template sender0.html_template,
          pyOr argsC5.html sender0.html)
      else none) :=
  get_message_field_resolution sender0 argsC5 msgC5 rfl

/-- C6: for every environment and sender address, both rendering parameter
sets carry the implicit variables `node`, `user`, `now` and `sender`, and
the error marker is carried in its HTML-inline form in the HTML set and in
its plain-text form in the text set. -/
theorem implicit_render_params (s : EmailSender) (env : SysEnv)
    (sender : Option String) :
    s.get_html_params env none sender "node" = some (.vStr env.node)
    ∧ s.get_html_params env none sender "user" = some (.vStr env.user)
    ∧ s.get_html_params env none sender "now" = some (.vTime env.now)
    ∧ s.get_html_params env none sender "sender" = some (.vAddr sender)
    ∧ s.get_html_params env none sender "error" = some (.vError "html-inline")
    ∧ s.get_text_params env none sender "node" = some (.vStr env.node)
    ∧ s.get_text_params env none sender "user" = some (.vStr env.user)
    ∧ s.get_text_params env none sender "now" = some (.vTime env.now)
    ∧ s.get_text_params env none sender "sender" = some (.vAddr sender)
    ∧ s.get_text_params env none sender "error" = some (.vError "text") :=
  ⟨rfl, rfl, rfl, rfl, rfl, rfl, rfl, rfl, rfl, rfl⟩

/-- C7: a compose call never mutates the composing object: the object
state after `get_message` is identical to the state before, whatever
per-call overrides are supplied. -/
theorem get_message_preserves_state (s : EmailSender) (a : GetMessageArgs) :
    (s.get_message_m a).2 = s := by
  by_cases h : pyOr a.subject s.subject = none <;>
    simp [EmailSender.get_message_m, h]

/-- C8: the effective sender is the per-call argument when truthy, else
the stored default when truthy, else the `user_name` given at
construction; in particular with no sender set anywhere the composed
message carries the authentication user name as its from-address. -/
theorem sender_three_step_fallback (s : EmailSender) (arg : Option String)
    (a : GetMessageArgs) (m : EmailMsg) :
    s.get_sender arg = (if truthyStr arg then arg
      else if truthyStr s.sender then s.sender else s.user_name)
    ∧ (a.sender = none → s.sender = none → s.get_message a = .ok m →
        m.fromH = s.user_name) := by
  constructor
  · rfl
  · intro h1 h2 hok
    have hf := (get_message_headers s a m hok).1
    rw [hf]
    unfold EmailSender.get_sender
    rw [h1, h2]
    rfl

/-- C8 witness: with no sender argument and no default sender, a concrete
message carries the authentication user name as its from-address. -/
theorem sender_three_step_fallback_witness :
    msgAuth.fromH = senderAuth.user_name :=
  (sender_three_step_fallback senderAuth none argsSubj msgAuth).2 rfl rfl rfl

/-- C9: for subject, text, html and the two template names, supplying the
empty string is the same as supplying nothing (the default is used), and
in particular a call with subject `""` on an object with no default
subject fails with the missing-subject error. -/
theorem empty_string_treated_absent (s : EmailSender) (a : GetMessageArgs) :
    s.get_message { a with subject := some "" }
      = s.get_message { a with subject := none }
    ∧ s.get_message { a with text := some "" }
      = s.get_message { a with text := none }
    ∧ s.get_message { a with html := some "" }
      = s.get_message { a with html := none }
    ∧ s.get_message { a with text_template := some "" }
      = s.get_message { a with text_template := none }
    ∧ s.get_message { a with html_template := some "" }
      = s.get_message { a with html_template := none }
    ∧ (s.subject = none →
        s.get_message { a with subject := some "" } = .error .emptySubject) := by
  refine ⟨?_, ?_, ?_, ?_, ?_, ?_⟩
  · simp [EmailSender.get_message, EmailSender.get_message_m, pyOr_empty, pyOr_none]
  · simp [EmailSender.get_message, EmailSender.get_message_m, pyOr_empty, pyOr_none]
  · simp [EmailSender.get_message, EmailSender.get_message_m, pyOr_empty, pyOr_none]
  · simp [EmailSender.get_message, EmailSender.get_message_m, pyOr_empty, pyOr_none]
  · simp [EmailSender.get_message, EmailSender.get_message_m, pyOr_empty, pyOr_none]
  · intro h
    simp [EmailSender.get_message, EmailSender.get_message_m, pyOr_empty, h]

/-- C9 witness: a concrete call with subject `""` on an object with no
default subject raises the missing-subject error. -/
theorem empty_string_treated_absent_witness :
    sender0.get_message { subject := some "" } = .error .emptySubject :=
  (empty_string_treated_absent sender0 {}).2.2.2.2.2 rfl

/-- C10: caller-supplied body params are applied after the implicit
variables: any key present in them — including the implicit ones — ends
up with the caller's value in both the HTML and text parameter sets. -/
theorem body_params_override_implicit (s : EmailSender) (env : SysEnv)
    (sender : Option String) (extra : List (String × PValue)) (k : String)
    (v : PValue) (h : lookupExtra extra k = some v) :
    s.get_html_params env (some extra) sender k = some v
    ∧ s.get_text_params env (some extra) sender k = some v := by
  have hne : extra.isEmpty = false := by
    cases extra with
    | nil => simp [lookupExtra] at h
    | cons x t => rfl
  constructor <;>
    simp [EmailSender.get_html_params, EmailSender.get_text_params, hne,
      updateExtra, h]

/-- C10 witness: a caller-supplied value for the implicit key `node`
overrides it in both parameter sets. -/
theorem body_params_override_implicit_witness :
    sender0.get_html_params env0 (some [("node", .vStr "else")]) (some "s@x")
        "node" = some (.vStr "else")
    ∧ sender0.get_text_params env0 (some [("node", .vStr "else")]) (some "s@x")
        "node" = some (.vStr "else") :=
  body_params_override_implicit sender0 env0 (some "s@x")
    [("node", .vStr "else")] "node" (.vStr "else") rfl

end RedMail
